import Mathlib

/-!
# Verification of the libTAS core: thread interception and frame boundary

Shallow embedding of the thread-interception wrappers
(`pthreadwrappers.cpp`) and of the frame-boundary controller
(`src/library/frame.cpp`) of libTAS, together with theorems checking the
natural-language specification against this embedding.

Conventions:
* `pthread_t` identities and `void*` values are modelled as `Nat`.
* C `int` return codes are modelled as `Int`; the glibc error constants
  carry their Linux values.
* The wrappers delegate to the original (glibc) functions in some
  branches; the result of such an external call is passed in as an
  explicit `origRet` argument, since the callee is outside the program
  under verification.
* `ThreadManager` / `ThreadInfo` are part of this repository but their
  source is not in the surveyed files; the definitions below that stand
  for them are modelled from the spec (each is marked so in its
  doc comment).  The wrapper functions themselves are transliterated
  from `pthreadwrappers.cpp`.
* All wrappers are modelled on their non-native path (`GlobalState::isNative()`
  false); the native path is a plain delegation to glibc.
-/

namespace LibTAS

/-- Linux errno value `ESRCH` (no such process/thread). -/
def ESRCH : Int := 3

/-- Linux errno value `EINVAL` (invalid argument). -/
def EINVAL : Int := 22

/-- Linux errno value `EBUSY` (device or resource busy / would block). -/
def EBUSY : Int := 16

/-- Linux errno value `ETIMEDOUT` (connection timed out). -/
def ETIMEDOUT : Int := 110

/-- Lifecycle states of a logical thread (`ThreadInfo::ST_*`).
Modelled from the spec: the `LogicalThread` state machine of §3
(`UNINITIALIZED`, `RUNNING`, `PARKED`, `ZOMBIE`; the `QUIT` condition is
carried by a separate flag on the thread). -/
inductive ThreadState where
  | ST_UNINITIALIZED
  | ST_RUNNING
  | ST_PARKED
  | ST_ZOMBIE
  deriving DecidableEq, Repr

/-- Modelled from the spec: the `ThreadInfo` record of the Logical Thread
Registry (§3 LogicalThread): stable identity, detached flag, lifecycle
state, and the routine's return-value slot. -/
structure ThreadInfo where
  pthread_id : Nat
  detached : Bool
  state : ThreadState
  retval : Nat
  deriving DecidableEq, Repr

/-- The subset of `SharedConfig` fields the surveyed code reads. -/
structure SharedConfig where
  recycle_threads : Bool
  fastforward : Bool
  running : Bool
  av_dumping : Bool
  /-- the bit test `shared_config.fastforward_mode & SharedConfig::FF_RENDERING` -/
  ff_rendering : Bool
  backtrack_savestate : Bool
  deriving DecidableEq, Repr

/-- The Logical Thread Registry's thread set, as a list of records. -/
def Registry := List ThreadInfo

instance : DecidableEq Registry := inferInstanceAs (DecidableEq (List ThreadInfo))

instance : Repr Registry := inferInstanceAs (Repr (List ThreadInfo))

/-- Modelled from the spec: `ThreadManager::getThread`, the
`lookupById` operation of §4.2 — returns the registered logical thread
with the given identity, or not-found if the identity is unknown.  (The
wrappers test the `detached` flag themselves after a successful lookup,
so the lookup itself does not filter detached threads.) -/
def getThread (r : Registry) (id : Nat) : Option ThreadInfo :=
  r.find? (fun t => t.pthread_id == id)

/-- Modelled from the spec: `ThreadManager::threadDetach` — "marks the
LogicalThread detached" (§4.3 detach). -/
def threadDetach (r : Registry) (id : Nat) : Registry :=
  r.map (fun t => if t.pthread_id == id then { t with detached := true } else t)

/-- Result of a join-family wrapper: the returned error code, the
registry afterwards, and the value stored through the `retval` out
pointer (when one was passed and the wrapper wrote it). -/
structure JoinOut where
  ret : Int
  registry : Registry
  stored : Option Nat
  deriving DecidableEq, Repr

/-- Wrapper for `pthread_join` (non-native path), from `pthreadwrappers.cpp`.
`origRet` is the result of `orig::pthread_join` in the non-recycling
branch.  In the recycling branch the wrapper polls (1 ms `nanosleep`)
until the target's state is `ST_ZOMBIE`; the model represents the call
as having completed that wait, so the registry argument is the registry
observed after it.  Note the wrapper never writes `*thread_return`
itself in the recycling branch. -/
def pthread_join (cfg : SharedConfig) (origRet : Int) (r : Registry) (id : Nat) :
    Int × Registry :=
  match getThread r id with
  | none => (ESRCH, r)
  | some t =>
    if t.detached then (EINVAL, r)
    else
      let ret := if cfg.recycle_threads then 0 else origRet
      (ret, threadDetach r id)

/-- Wrapper for `pthread_detach` (non-native path), from
`pthreadwrappers.cpp`.  `origRet` is the result of
`orig::pthread_detach` in the non-recycling branch. -/
def pthread_detach (cfg : SharedConfig) (origRet : Int) (r : Registry) (id : Nat) :
    Int × Registry :=
  match getThread r id with
  | none => (ESRCH, r)
  | some t =>
    if t.detached then (EINVAL, r)
    else
      let ret := if cfg.recycle_threads then 0 else origRet
      (ret, threadDetach r id)

/-- Wrapper for `pthread_tryjoin_np` (non-native path), from
`pthreadwrappers.cpp`.  `retvalPtr` says whether the caller passed a
non-null `retval` out pointer.  The internal variable `ret` is computed
exactly as in the source, but the source's final statement is
`return EBUSY;` — the constant, not `ret` — so the function's returned
code is `EBUSY` on every path that reaches the end (the computed `ret`
is only consulted by the debug logging). -/
def pthread_tryjoin_np (cfg : SharedConfig) (origRet : Int) (r : Registry)
    (id : Nat) (retvalPtr : Bool) : JoinOut :=
  match getThread r id with
  | none => ⟨ESRCH, r, none⟩
  | some t =>
    if t.detached then ⟨EINVAL, r, none⟩
    else
      let step : Int × Registry × Option Nat :=
        if cfg.recycle_threads then
          if t.state = ThreadState.ST_ZOMBIE then
            (0, threadDetach r id, if retvalPtr then some t.retval else none)
          else
            (EBUSY, r, none)
        else
          (origRet, if origRet = 0 then threadDetach r id else r, none)
      ⟨EBUSY, step.2.1, step.2.2⟩

/-- A `struct timespec` value, seconds and nanoseconds as signed fields. -/
structure Timespec where
  tv_sec : Int
  tv_nsec : Int
  deriving DecidableEq, Repr

/-- Wrapper for `pthread_timedjoin_np` (non-native path), from
`pthreadwrappers.cpp`.  The timeout validity test
(`tv_sec < 0 || tv_nsec >= 1000000000`) precedes the registry lookup.
In the recycling branch the wrapper sleeps the whole timeout
(`nanosleep(abstime)`) and then checks the state once; the registry
argument models the registry observed at that check.  As with
`pthread_tryjoin_np`, the source's final statement is
`return ETIMEDOUT;` — the constant — so every path that reaches the end
reports `ETIMEDOUT`, whatever the computed `ret` was. -/
def pthread_timedjoin_np (cfg : SharedConfig) (origRet : Int) (r : Registry)
    (id : Nat) (retvalPtr : Bool) (abstime : Timespec) : JoinOut :=
  if abstime.tv_sec < 0 ∨ abstime.tv_nsec ≥ 1000000000 then
    ⟨EINVAL, r, none⟩
  else
    match getThread r id with
    | none => ⟨ESRCH, r, none⟩
    | some t =>
      if t.detached then ⟨EINVAL, r, none⟩
      else
        let step : Int × Registry × Option Nat :=
          if cfg.recycle_threads then
            if t.state = ThreadState.ST_ZOMBIE then
              (0, threadDetach r id, if retvalPtr then some t.retval else none)
            else
              (ETIMEDOUT, r, none)
          else
            (origRet, if origRet = 0 then threadDetach r id else r, none)
        ⟨ETIMEDOUT, step.2.1, step.2.2⟩

/-! ## Thread creation, exit, and the trampoline (`pthread_start`) -/

/-- Modelled from the spec: the allocation tie-break of §4.2 — when
recycling is enabled, `ThreadManager::getNewThread` /
`initThreadFromParent` prefer an existing `PARKED`/`ZOMBIE` slot (whose
OS thread is still alive) over a fresh slot; `initThreadFromParent`
reports whether the slot it filled was such a recycled one. -/
def findRecyclable (r : Registry) : Option ThreadInfo :=
  r.find? (fun t =>
    match t.state with
    | ThreadState.ST_PARKED => true
    | ThreadState.ST_ZOMBIE => true
    | _ => false)

/-- Observable outcome of the `pthread_create` wrapper. -/
structure CreateOut where
  /-- the wrapper's return value -/
  ret : Int
  /-- whether `orig::pthread_create` was invoked (an OS-thread spawn was attempted) -/
  calledOrigCreate : Bool
  /-- the spawn's entry point was the internal trampoline `pthread_start` -/
  entryIsTrampoline : Bool
  /-- the parked thread was woken (`thread->cv.notify_all()`) -/
  notifiedRecycledThread : Bool
  /-- whether `ThreadManager::threadIsDead(thread)` was called (slot released) -/
  releasedToFreePool : Bool
  /-- the `thread->detached` flag recorded from the attribute -/
  detachedFlag : Bool
  deriving DecidableEq, Repr

/-- Wrapper for `pthread_create`, from `pthreadwrappers.cpp`.  `origRet` is
the result of `orig::pthread_create` when that call is made (the
non-recycled branch); `attrDetached` is whether the passed attribute
requests `PTHREAD_CREATE_DETACHED`. -/
def pthread_create (cfg : SharedConfig) (origRet : Int) (r : Registry)
    (attrDetached : Bool) : CreateOut :=
  let isRecycled := cfg.recycle_threads && (findRecyclable r).isSome
  if isRecycled then
    { ret := 0, calledOrigCreate := false, entryIsTrampoline := false,
      notifiedRecycledThread := true, releasedToFreePool := false,
      detachedFlag := attrDetached }
  else
    if origRet ≠ 0 then
      { ret := origRet, calledOrigCreate := true, entryIsTrampoline := true,
        notifiedRecycledThread := false, releasedToFreePool := true,
        detachedFlag := attrDetached }
    else
      { ret := 0, calledOrigCreate := true, entryIsTrampoline := true,
        notifiedRecycledThread := false, releasedToFreePool := false,
        detachedFlag := attrDetached }

/-- How a routine dispatched by the trampoline gives control back:
either by returning normally with a value, or by calling the
`pthread_exit` wrapper with a value. -/
inductive RoutineOutcome where
  | normalReturn (v : Nat)
  | callsPthreadExit (v : Nat)
  deriving DecidableEq, Repr

/-- The control-flow action the `pthread_exit` wrapper takes. -/
inductive ExitAction where
  /-- the action `throw ThreadExitException()` — unwinds to the trampoline's
  `try`/`catch` around the routine call -/
  | throwThreadExitException
  /-- the action `ThreadManager::threadExit(retval)` then `orig::pthread_exit(retval)` -/
  | recordExitAndOsExit
  deriving DecidableEq, Repr

/-- Result of the `pthread_exit` wrapper itself. -/
structure ExitOut where
  action : ExitAction
  /-- argument of the `ThreadManager::threadExit` call made by the
  wrapper itself, when it makes one -/
  recordedRetval : Option Nat
  deriving DecidableEq, Repr

/-- Wrapper for `pthread_exit`, from `pthreadwrappers.cpp`: with recycling
enabled it throws `ThreadExitException` (so the OS thread does not
terminate); otherwise it records the exit in the registry and performs
a genuine `orig::pthread_exit`. -/
def pthread_exit (cfg : SharedConfig) (retval : Nat) : ExitOut :=
  if cfg.recycle_threads then
    ⟨ExitAction.throwThreadExitException, none⟩
  else
    ⟨ExitAction.recordExitAndOsExit, some retval⟩

/-- Observable outcome of one `ST_RUNNING` iteration of the trampoline
`pthread_start` for the thread executing the dispatched routine. -/
structure TrampolineOut where
  /-- the `catch (const ThreadExitException&)` handler ran -/
  caughtThreadExit : Bool
  /-- the post-routine thread-local-state erasure ran
  (`clear_pthread_keys`, `__call_tls_dtors`, `__libc_thread_freeres`,
  `_dl_allocate_tls_init`) -/
  tlsErased : Bool
  /-- the thread's lifecycle state after `ThreadManager::threadExit`.
  Modelled from the spec: `threadExit` records the return value and
  moves the thread to `ZOMBIE` (§3 lifecycle, `RUNNING→ZOMBIE` on
  routine return/exit). -/
  finalState : ThreadState
  /-- the OS thread terminates (leaves the trampoline loop, or exited
  via `orig::pthread_exit`) rather than surviving for recycling -/
  osThreadTerminated : Bool
  deriving DecidableEq, Repr

/-- One `ST_RUNNING` iteration of the trampoline `pthread_start`, from
`pthreadwrappers.cpp`: run the routine inside `try`/`catch
(ThreadExitException)`, then erase thread-local state, call
`ThreadManager::threadExit`, and loop back while
`!thread->quit && shared_config.recycle_threads`.  If the routine calls
the `pthread_exit` wrapper and that wrapper performs a genuine OS exit,
the trampoline's post-routine path is skipped (the OS thread is gone);
`ThreadManager::threadExit` was then already called by the wrapper. -/
def pthread_start_iteration (cfg : SharedConfig) (quit : Bool)
    (outcome : RoutineOutcome) : TrampolineOut :=
  match outcome with
  | RoutineOutcome.normalReturn _ =>
    { caughtThreadExit := false, tlsErased := true,
      finalState := ThreadState.ST_ZOMBIE,
      osThreadTerminated := quit || !cfg.recycle_threads }
  | RoutineOutcome.callsPthreadExit v =>
    match (pthread_exit cfg v).action with
    | ExitAction.throwThreadExitException =>
      { caughtThreadExit := true, tlsErased := true,
        finalState := ThreadState.ST_ZOMBIE,
        osThreadTerminated := quit || !cfg.recycle_threads }
    | ExitAction.recordExitAndOsExit =>
      { caughtThreadExit := false, tlsErased := false,
        finalState := ThreadState.ST_ZOMBIE,
        osThreadTerminated := true }

/-! ## Frame boundary (`src/library/frame.cpp`)

The frame counter is an `unsigned long`; on the LP64 targets libTAS
builds for this is 64 bits wide, so it is modelled as a `Nat` reduced
modulo `2 ^ 64` where the source mutates it.

The `fps` value is a C `float` in the source; it is modelled here at
non-negative integral values (every natural number below `2 ^ 24` is
exactly representable as a `float`).  The bit-level exponent extraction
in `skipDraw` is expressed through `Nat.log 2`, which for a positive
integral float equals the unbiased IEEE-754 exponent. -/

/-- The modulus of `unsigned long` arithmetic, namely `2 ^ 64`. -/
def UINT64_MOD : Nat := 2 ^ 64

/-- Messages sent program → controller that the surveyed code emits. -/
inductive Msg where
  | MSGB_ALERT_MSG
  | MSGB_FRAMECOUNT_TIME
  | MSGB_GAMEINFO
  | MSGB_FPS
  | MSGB_DO_BACKTRACK_SAVESTATE
  | MSGB_START_FRAMEBOUNDARY
  | MSGB_LOADING_SUCCEEDED
  deriving DecidableEq, Repr

/-- Messages received controller → program in the frame boundary.  The
`MSGN_CONFIG` tag carries the replacement `SharedConfig` payload; the
other payloads (inputs, strings, indices) go to collaborators outside
the modelled state and are elided.  `unknownTag` stands for any tag
value not recognized by the receive loop's `switch`. -/
inductive NMsg where
  | MSGN_USERQUIT
  | MSGN_CONFIG (c : SharedConfig)
  | MSGN_DUMP_FILE
  | MSGN_ALL_INPUTS
  | MSGN_EXPOSE
  | MSGN_PREVIEW_INPUTS
  | MSGN_SAVESTATE_PATH
  | MSGN_SAVESTATE_INDEX
  | MSGN_SAVESTATE
  | MSGN_LOADSTATE
  | MSGN_STOP_ENCODE
  | MSGN_OSD_MSG
  | MSGN_END_FRAMEBOUNDARY
  | MSGN_RAMWATCH
  | unknownTag (t : Nat)
  deriving DecidableEq, Repr

/-- The file-scope mutable state of `frame.cpp` that the surveyed code
reads or writes, together with the shared configuration (`global.h`)
and the presence of the `avencoder` object. -/
structure FrameGlobals where
  cfg : SharedConfig
  framecount : Nat
  nondraw_framecount : Nat
  didASavestate : Bool
  saveBacktrack : Bool
  skipping_draw : Bool
  skip_counter : Nat
  is_exiting : Bool
  avencoder : Bool
  deriving DecidableEq, Repr

/-- The skip-frequency computation inside `skipDraw` (`frame.cpp`):
```
unsigned int skip_freq = 1;
if (fps > 1) {
    fps--;
    memcpy(&skip_freq, &fps, sizeof(int));
    skip_freq = 1U << ((skip_freq >> 23) - 126 - 3);
}
if (skip_freq < 4) skip_freq = 4;
```
For a float holding the positive integer `fps - 1`, `bits >> 23` is the
biased exponent `127 + Nat.log 2 (fps - 1)`, so the shift count
`(bits >> 23) - 126 - 3` is `Nat.log 2 (fps - 1) - 2`.  When
`1 < fps < 5` that count is negative, which makes the C shift
undefined; the truncated `Nat` subtraction used here is an arbitrary
total completion of that undefined zone, and no theorem below relies
on it. -/
def skipFreqOfFps (fps : Nat) : Nat :=
  let raw := if 1 < fps then 2 ^ (127 + Nat.log 2 (fps - 1) - 126 - 3) else 1
  if raw < 4 then 4 else raw

/-- Function `skipDraw` (`frame.cpp`): decides whether to skip drawing the next
frame, and updates the static `skip_counter`.  Returns
`(skip?, skip_counter afterwards)`. -/
def skipDraw (cfg : SharedConfig) (fps : Nat) (skip_counter : Nat) :
    Bool × Nat :=
  if !cfg.fastforward then (false, skip_counter)
  else if !cfg.running then (false, skip_counter)
  else if cfg.av_dumping then (false, skip_counter)
  else if cfg.ff_rendering then (true, skip_counter)
  else if skip_counter + 1 ≥ skipFreqOfFps fps then (false, 0)
  else (true, skip_counter + 1)

/-- Number of non-skipped (drawn) frames over `n` successive `skipDraw`
calls starting from counter `c`, at fixed configuration and fps. -/
def countDraws (cfg : SharedConfig) (fps : Nat) : Nat → Nat → Nat
  | 0, _ => 0
  | n + 1, c =>
    (if (skipDraw cfg fps c).1 then 0 else 1)
      + countDraws cfg fps n (skipDraw cfg fps c).2

/-- The send phase of `frameBoundary` (`frame.cpp`, after the frame
count increment and `enterFrameBoundary`): alert messages, the
frame-count/tick report, the optional one-shot `GameInfo` record, the
fps pair, the conditional backtrack-savestate request (clearing the
`saveBacktrack` flag), and the terminal `MSGB_START_FRAMEBOUNDARY`
marker.  `alerts` is the number of pending alert strings and `giToSend`
is `game_info.tosend`.  Returns the messages in send order and the
globals afterwards (the `saveBacktrack` clearing happens inside the
`if (saveBacktrack)` block, before the terminal marker is sent). -/
def frameSendPhase (alerts : Nat) (giToSend : Bool) (g : FrameGlobals) :
    List Msg × FrameGlobals :=
  let msgs :=
    List.replicate alerts Msg.MSGB_ALERT_MSG
    ++ [Msg.MSGB_FRAMECOUNT_TIME]
    ++ (if giToSend then [Msg.MSGB_GAMEINFO] else [])
    ++ [Msg.MSGB_FPS]
    ++ (if g.saveBacktrack && (g.cfg.backtrack_savestate && g.didASavestate)
        then [Msg.MSGB_DO_BACKTRACK_SAVESTATE] else [])
    ++ [Msg.MSGB_START_FRAMEBOUNDARY]
  (msgs, { g with saveBacktrack := false })

/-- The part of the global state that the `receive_messages` loop of
`frame.cpp` can mutate.  The loop's `switch` never assigns
`framecount`, `nondraw_framecount`, `saveBacktrack`, `skipping_draw` or
`skip_counter` (it only reports `framecount` back to the controller),
so those fields are not part of this record. -/
structure RecvGlobals where
  cfg : SharedConfig
  didASavestate : Bool
  is_exiting : Bool
  avencoder : Bool
  deriving DecidableEq, Repr

/-- Result of the `receive_messages` loop of `frame.cpp`. -/
structure RecvOut where
  g : RecvGlobals
  /-- messages sent back during the loop, in order -/
  sent : List Msg
  /-- channel content not consumed when the loop returned -/
  leftover : List NMsg
  /-- the `default:` case ran (`debuglog(LCF_ERROR | LCF_SOCKET, "Unknown
  message received")`) -/
  loggedUnknownTag : Bool
  /-- the `MYASSERT(message == MSGN_CONFIG)` after a restore resumption
  failed -/
  assertFailed : Bool
  /-- the input list ran out: the loop would block on `receiveMessage()` -/
  blocked : Bool
  deriving DecidableEq, Repr

/-- The `receive_messages` loop of `frame.cpp`, over the list of
messages available on the channel.  `restoreInProgress` models
`ThreadManager::restoreInProgress` at the savestate resumption check.
External collaborator calls (checkpointing, screen redraw, encoder
teardown, event queue) are elided; their effects on the modelled
globals (`didASavestate`, `is_exiting`, `cfg`, `avencoder`) are kept.
The `default:` case of the `switch` — any unrecognized tag, which in
the source also catches `MSGN_RAMWATCH` since that tag has no case in
this loop — logs and returns. -/
def receive_messages (restoreInProgress : Bool) :
    List NMsg → RecvGlobals → RecvOut
  | [], g => ⟨g, [], [], false, false, true⟩
  | msg :: rest, g =>
    match msg with
    | NMsg.MSGN_USERQUIT =>
      -- pushQuitEvent() synthesizes a platform close-window event (external)
      receive_messages restoreInProgress rest { g with is_exiting := true }
    | NMsg.MSGN_CONFIG c =>
      receive_messages restoreInProgress rest { g with cfg := c }
    | NMsg.MSGN_DUMP_FILE => receive_messages restoreInProgress rest g
    | NMsg.MSGN_ALL_INPUTS => receive_messages restoreInProgress rest g
    | NMsg.MSGN_EXPOSE => receive_messages restoreInProgress rest g
    | NMsg.MSGN_PREVIEW_INPUTS => receive_messages restoreInProgress rest g
    | NMsg.MSGN_SAVESTATE_PATH => receive_messages restoreInProgress rest g
    | NMsg.MSGN_SAVESTATE_INDEX => receive_messages restoreInProgress rest g
    | NMsg.MSGN_SAVESTATE =>
      let g1 := { g with didASavestate := true }
      if restoreInProgress then
        match rest with
        | NMsg.MSGN_CONFIG c :: rest2 =>
          let out := receive_messages restoreInProgress rest2 { g1 with cfg := c }
          { out with
            sent := Msg.MSGB_LOADING_SUCCEEDED :: Msg.MSGB_FRAMECOUNT_TIME :: out.sent }
        | _ =>
          -- MYASSERT(message == MSGN_CONFIG) does not hold
          ⟨g1, [Msg.MSGB_LOADING_SUCCEEDED], rest, false, true, false⟩
      else
        receive_messages restoreInProgress rest g1
    | NMsg.MSGN_LOADSTATE =>
      let out := receive_messages restoreInProgress rest g
      { out with sent := Msg.MSGB_FRAMECOUNT_TIME :: out.sent }
    | NMsg.MSGN_STOP_ENCODE =>
      if g.avencoder then
        receive_messages restoreInProgress rest
          { g with avencoder := false, cfg := { g.cfg with av_dumping := false } }
      else
        receive_messages restoreInProgress rest g
    | NMsg.MSGN_OSD_MSG => receive_messages restoreInProgress rest g
    | NMsg.MSGN_END_FRAMEBOUNDARY => ⟨g, [], rest, false, false, false⟩
    | NMsg.MSGN_RAMWATCH => ⟨g, [], rest, true, false, false⟩
    | NMsg.unknownTag _ => ⟨g, [], rest, true, false, false⟩

/-- Test used by the ramwatch drain loop of `frameBoundary`:
whether a received message carries the `MSGN_RAMWATCH` tag. -/
def isRamwatchMsg : NMsg → Bool
  | NMsg.MSGN_RAMWATCH => true
  | _ => false

/-- Per-call inputs of `frameBoundary` that come from outside the
modelled globals: the draw flag, the current fps value (the static
locals of `computeFPS`), the number of pending alert strings,
`game_info.tosend`, the channel content, and
`ThreadManager::restoreInProgress`. -/
structure FrameInputs where
  drawFB : Bool
  fps : Nat
  alerts : Nat
  giToSend : Bool
  incoming : List NMsg
  restoreInProgress : Bool
  deriving DecidableEq, Repr

/-- Result of one `frameBoundary` call. -/
structure FrameOut where
  g : FrameGlobals
  sent : List Msg
  leftoverIncoming : List NMsg
  loggedUnknownTag : Bool
  assertFailed : Bool
  blocked : Bool
  deriving DecidableEq, Repr

/-- Function `frameBoundary` (`frame.cpp`), keeping the effects on the modelled
globals and the control-channel traffic; rendering, HUD, window title,
encoder activity, event pushing and the deterministic-timer calls are
external collaborators.  Order of effects, as in the source: increment
`framecount` (`unsigned long`); `computeFPS` / `enterFrameBoundary`
(external); the send phase; the leading `MSGN_RAMWATCH` drain loop —
which reads messages while their tag is `MSGN_RAMWATCH` and, having
read the first message with a different tag into its `message` local,
never dispatches it, so that message is consumed and silently
discarded (hence the `drop 1`); `nondraw_framecount` update; the
`receive_messages` loop; `skipDraw` for the next frame;
`exitFrameBoundary` (external). -/
def frameBoundary (inp : FrameInputs) (g0 : FrameGlobals) : FrameOut :=
  let g1 := { g0 with framecount := (g0.framecount + 1) % UINT64_MOD }
  let sendOut := frameSendPhase inp.alerts inp.giToSend g1
  let afterWatches := (inp.incoming.dropWhile isRamwatchMsg).drop 1
  let g3 :=
    { sendOut.2 with
      nondraw_framecount :=
        if inp.drawFB then sendOut.2.nondraw_framecount
        else sendOut.2.nondraw_framecount + 1 }
  let r := receive_messages inp.restoreInProgress afterWatches
    ⟨g3.cfg, g3.didASavestate, g3.is_exiting, g3.avencoder⟩
  let sk := skipDraw r.g.cfg inp.fps g3.skip_counter
  let g4 :=
    { g3 with
      cfg := r.g.cfg, didASavestate := r.g.didASavestate,
      is_exiting := r.g.is_exiting, avencoder := r.g.avencoder,
      skipping_draw := sk.1, skip_counter := sk.2 }
  ⟨g4, sendOut.1 ++ r.sent, r.leftover, r.loggedUnknownTag, r.assertFailed, r.blocked⟩

/-- A sequence of `frameBoundary` calls, one per element of `inps`. -/
def iterFrameBoundary (inps : List FrameInputs) (g : FrameGlobals) : FrameGlobals :=
  inps.foldl (fun acc i => (frameBoundary i acc).g) g

/-! ## Theorems: thread interception layer -/

/-- C1: on the success path of the join (recycling enabled, known,
non-detached, `ZOMBIE` target) the wrappers perform every effect of a
successful join — they store the routine's return value through the out
pointer and detach the thread in the registry — yet `pthread_tryjoin_np`
reports `EBUSY` and `pthread_timedjoin_np` reports `ETIMEDOUT`, because
both functions end with a `return` of that constant instead of the
computed `ret` (which their own logging shows to be `0`, "Joining
thread successfully").  The claim's "returns success (0)" is what the
code itself intends but does not do. -/
theorem tryjoin_timedjoin_zombie_return_constant :
    pthread_tryjoin_np ⟨true, false, false, false, false, false⟩ 0
        [⟨1, false, ThreadState.ST_ZOMBIE, 42⟩] 1 true
      = ⟨EBUSY, [⟨1, true, ThreadState.ST_ZOMBIE, 42⟩], some 42⟩ ∧
    pthread_timedjoin_np ⟨true, false, false, false, false, false⟩ 0
        [⟨1, false, ThreadState.ST_ZOMBIE, 42⟩] 1 true ⟨0, 1000000⟩
      = ⟨ETIMEDOUT, [⟨1, true, ThreadState.ST_ZOMBIE, 42⟩], some 42⟩ := by
  decide

/-- C2: a `pthread_timedjoin_np` call with recycling enabled, a valid
timeout, and a known, non-detached target that is still not `ZOMBIE`
when the wait ends, returns `ETIMEDOUT`, leaves the registry unchanged
(no detach mark, no removal, no stored retval), and a subsequent
`pthread_join` of the same identity still proceeds (it does not fail
with `ESRCH` or `EINVAL`; with recycling it completes with `0`). -/
theorem timedjoin_timeout_keeps_thread_joinable
    (cfg : SharedConfig) (origRet origJoinRet : Int) (r : Registry) (id : Nat)
    (retvalPtr : Bool) (ts : Timespec) (t : ThreadInfo)
    (hrec : cfg.recycle_threads = true)
    (hsec : 0 ≤ ts.tv_sec) (hnsec : ts.tv_nsec < 1000000000)
    (hget : getThread r id = some t)
    (hdet : t.detached = false)
    (hstate : t.state ≠ ThreadState.ST_ZOMBIE) :
    pthread_timedjoin_np cfg origRet r id retvalPtr ts = ⟨ETIMEDOUT, r, none⟩ ∧
    pthread_join cfg origJoinRet r id = (0, threadDetach r id) := by
  have hts : ¬(ts.tv_sec < 0 ∨ ts.tv_nsec ≥ 1000000000) := by
    push_neg
    exact ⟨hsec, hnsec⟩
  constructor
  · unfold pthread_timedjoin_np
    rw [if_neg hts, hget]
    simp [hdet, hrec, hstate]
  · unfold pthread_join
    rw [hget]
    simp [hdet, hrec]

/-- Witness for the timed-join timeout theorem at a concrete registry
holding one running thread. -/
theorem timedjoin_timeout_keeps_thread_joinable_witness :
    pthread_timedjoin_np ⟨true, false, false, false, false, false⟩ 0
        [⟨1, false, ThreadState.ST_RUNNING, 7⟩] 1 true ⟨0, 5⟩
      = ⟨ETIMEDOUT, [⟨1, false, ThreadState.ST_RUNNING, 7⟩], none⟩ ∧
    pthread_join ⟨true, false, false, false, false, false⟩ 0
        [⟨1, false, ThreadState.ST_RUNNING, 7⟩] 1
      = (0, threadDetach [⟨1, false, ThreadState.ST_RUNNING, 7⟩] 1) :=
  timedjoin_timeout_keeps_thread_joinable _ 0 0 _ 1 true _
    ⟨1, false, ThreadState.ST_RUNNING, 7⟩ rfl (by decide) (by decide) rfl rfl
    (by decide)

/-- C6: in non-native mode, `pthread_join` and `pthread_detach` return
`ESRCH` when the identity is unknown to the registry and `EINVAL` when
the logical thread is already detached, and in both failure cases the
registry is returned unchanged. -/
theorem join_detach_failure_taxonomy
    (cfg : SharedConfig) (oj od : Int) (r : Registry) (id : Nat) :
    (getThread r id = none →
      pthread_join cfg oj r id = (ESRCH, r) ∧
      pthread_detach cfg od r id = (ESRCH, r)) ∧
    (∀ t : ThreadInfo, getThread r id = some t → t.detached = true →
      pthread_join cfg oj r id = (EINVAL, r) ∧
      pthread_detach cfg od r id = (EINVAL, r)) := by
  constructor
  · intro h
    unfold pthread_join pthread_detach
    rw [h]
    exact ⟨rfl, rfl⟩
  · intro t h hd
    unfold pthread_join pthread_detach
    rw [h]
    simp [hd]

/-- Witness for the join/detach failure taxonomy: unknown identity on
an empty registry, and a detached thread in a one-entry registry. -/
theorem join_detach_failure_taxonomy_witness :
    pthread_join ⟨true, false, false, false, false, false⟩ 0 [] 0 = (ESRCH, []) ∧
    pthread_detach ⟨true, false, false, false, false, false⟩ 0
        [⟨1, true, ThreadState.ST_RUNNING, 0⟩] 1
      = (EINVAL, [⟨1, true, ThreadState.ST_RUNNING, 0⟩]) :=
  ⟨((join_detach_failure_taxonomy _ 0 0 [] 0).1 rfl).1,
   ((join_detach_failure_taxonomy _ 0 0 [⟨1, true, ThreadState.ST_RUNNING, 0⟩] 1).2
      ⟨1, true, ThreadState.ST_RUNNING, 0⟩ rfl rfl).2⟩

/-- C10: a `pthread_timedjoin_np` call in non-native mode whose timeout
has a negative seconds field or a nanoseconds field of at least
10⁹ returns `EINVAL` with the registry unchanged and nothing stored,
for every registry — the validity test precedes the thread lookup, so
the outcome is independent of whether the identity is known, detached
or a zombie. -/
theorem timedjoin_invalid_timeout_einval
    (cfg : SharedConfig) (origRet : Int) (r : Registry) (id : Nat)
    (retvalPtr : Bool) (ts : Timespec)
    (h : ts.tv_sec < 0 ∨ ts.tv_nsec ≥ 1000000000) :
    pthread_timedjoin_np cfg origRet r id retvalPtr ts = ⟨EINVAL, r, none⟩ := by
  unfold pthread_timedjoin_np
  rw [if_pos h]

/-- Witness for the invalid-timeout theorem: a negative-seconds timeout
aimed at a zombie thread that an ordinary timed join would act on. -/
theorem timedjoin_invalid_timeout_einval_witness :
    pthread_timedjoin_np ⟨true, false, false, false, false, false⟩ 0
        [⟨1, false, ThreadState.ST_ZOMBIE, 42⟩] 1 true ⟨-1, 0⟩
      = ⟨EINVAL, [⟨1, false, ThreadState.ST_ZOMBIE, 42⟩], none⟩ :=
  timedjoin_invalid_timeout_einval _ 0 _ 1 true _ (Or.inl (by decide))

/-- C7: `pthread_create` either recycles — when recycling is enabled
and a parked/zombie slot exists it returns `0`, spawns no OS thread,
and wakes the parked thread — or spawns a new OS thread through
`orig::pthread_create` with the trampoline `pthread_start` as entry
point; in that case its return value is exactly the platform's, and
the speculative logical-thread slot is released back to the free pool
precisely when the spawn failed. -/
theorem create_recycles_or_spawns
    (cfg : SharedConfig) (origRet : Int) (r : Registry) (ad : Bool) :
    ((cfg.recycle_threads && (findRecyclable r).isSome) = true →
      pthread_create cfg origRet r ad =
        { ret := 0, calledOrigCreate := false, entryIsTrampoline := false,
          notifiedRecycledThread := true, releasedToFreePool := false,
          detachedFlag := ad }) ∧
    ((cfg.recycle_threads && (findRecyclable r).isSome) = false →
      (pthread_create cfg origRet r ad).calledOrigCreate = true ∧
      (pthread_create cfg origRet r ad).entryIsTrampoline = true ∧
      (pthread_create cfg origRet r ad).ret = origRet ∧
      ((pthread_create cfg origRet r ad).releasedToFreePool = true ↔ origRet ≠ 0)) := by
  constructor
  · intro h
    simp [pthread_create, h]
  · intro h
    by_cases h0 : origRet = 0
    · simp [pthread_create, h, h0]
    · simp [pthread_create, h, h0]

/-- Witness for the create theorem: a recycled creation from a
one-zombie registry, and a failed spawn (platform code 11, `EAGAIN`)
from an empty registry that releases the slot. -/
theorem create_recycles_or_spawns_witness :
    pthread_create ⟨true, false, false, false, false, false⟩ 0
        [⟨1, false, ThreadState.ST_ZOMBIE, 0⟩] false
      = { ret := 0, calledOrigCreate := false, entryIsTrampoline := false,
          notifiedRecycledThread := true, releasedToFreePool := false,
          detachedFlag := false } ∧
    (pthread_create ⟨true, false, false, false, false, false⟩ 11 [] false).ret = 11 ∧
    (pthread_create ⟨true, false, false, false, false, false⟩ 11 [] false).releasedToFreePool
      = true :=
  ⟨(create_recycles_or_spawns _ 0 _ false).1 (by decide),
   ((create_recycles_or_spawns _ 11 [] false).2 (by decide)).2.2.1,
   ((create_recycles_or_spawns _ 11 [] false).2 (by decide)).2.2.2.mpr (by decide)⟩

/-- C8: a `pthread_exit` call made from a routine dispatched by the
trampoline: with recycling enabled it throws the distinguished
`ThreadExitException` (recording nothing itself), the trampoline
catches it, the thread-local-state erasure and the `ZOMBIE` transition
still execute, and the OS thread does not terminate; with recycling
disabled the wrapper records the exit (`threadExit` with the passed
retval) and performs a genuine OS-level thread exit. -/
theorem exit_recycling_control_transfer (cfg : SharedConfig) (v : Nat) :
    (cfg.recycle_threads = true →
      pthread_exit cfg v = ⟨ExitAction.throwThreadExitException, none⟩ ∧
      pthread_start_iteration cfg false (RoutineOutcome.callsPthreadExit v) =
        { caughtThreadExit := true, tlsErased := true,
          finalState := ThreadState.ST_ZOMBIE, osThreadTerminated := false }) ∧
    (cfg.recycle_threads = false →
      pthread_exit cfg v = ⟨ExitAction.recordExitAndOsExit, some v⟩ ∧
      (pthread_start_iteration cfg false
          (RoutineOutcome.callsPthreadExit v)).osThreadTerminated = true) := by
  constructor <;> intro h <;>
    simp [pthread_exit, pthread_start_iteration, h]

/-- Witness for the exit theorem at both recycling settings, retval 9. -/
theorem exit_recycling_control_transfer_witness :
    pthread_start_iteration ⟨true, false, false, false, false, false⟩ false
        (RoutineOutcome.callsPthreadExit 9) =
      { caughtThreadExit := true, tlsErased := true,
        finalState := ThreadState.ST_ZOMBIE, osThreadTerminated := false } ∧
    pthread_exit ⟨false, false, false, false, false, false⟩ 9
      = ⟨ExitAction.recordExitAndOsExit, some 9⟩ :=
  ⟨((exit_recycling_control_transfer ⟨true, false, false, false, false, false⟩ 9).1 rfl).2,
   ((exit_recycling_control_transfer ⟨false, false, false, false, false, false⟩ 9).2 rfl).1⟩

/-! ## Theorems: frame boundary -/

/-- One `frameBoundary` call advances the frame counter by one in
`unsigned long` (modulo `2 ^ 64`) arithmetic, whatever the draw flag,
configuration, channel content and the rest of the state. -/
theorem frameBoundary_framecount_step (inp : FrameInputs) (g : FrameGlobals) :
    (frameBoundary inp g).g.framecount = (g.framecount + 1) % UINT64_MOD :=
  rfl

/-- Over a sequence of `frameBoundary` calls the counter ends at the
start value plus the number of calls, modulo `2 ^ 64`. -/
theorem iterFrameBoundary_framecount (inps : List FrameInputs) (g : FrameGlobals)
    (h : g.framecount < UINT64_MOD) :
    (iterFrameBoundary inps g).framecount
      = (g.framecount + inps.length) % UINT64_MOD := by
  induction inps generalizing g with
  | nil => simp [iterFrameBoundary, Nat.mod_eq_of_lt h]
  | cons i rest ih =>
    have hstep := frameBoundary_framecount_step i g
    have hlt : (frameBoundary i g).g.framecount < UINT64_MOD := by
      rw [hstep]
      exact Nat.mod_lt _ (by decide)
    have := ih (frameBoundary i g).g hlt
    simp only [iterFrameBoundary, List.foldl] at this ⊢
    rw [this, hstep, Nat.mod_add_mod, List.length_cons]
    congr 1
    omega

/-- C3 (amended): the frame counter is an `unsigned long`, so each
`frameBoundary` call advances it by exactly one modulo `2 ^ 64` —
equivalently, by exactly one whenever it is below `2 ^ 64 - 1` — for
all values of the draw flag and of the skip-draw decision, and over a
sequence of `n` calls it advances by exactly `n` modulo `2 ^ 64`. -/
theorem frameBoundary_framecount_increments (inp : FrameInputs) (g : FrameGlobals)
    (h : g.framecount < UINT64_MOD) :
    (frameBoundary inp g).g.framecount = (g.framecount + 1) % UINT64_MOD ∧
    (g.framecount + 1 < UINT64_MOD →
      (frameBoundary inp g).g.framecount = g.framecount + 1) ∧
    ∀ inps : List FrameInputs,
      (iterFrameBoundary inps g).framecount
        = (g.framecount + inps.length) % UINT64_MOD := by
  refine ⟨frameBoundary_framecount_step inp g, ?_, fun inps =>
    iterFrameBoundary_framecount inps g h⟩
  intro hlt
  rw [frameBoundary_framecount_step inp g, Nat.mod_eq_of_lt hlt]

/-- Witness for the amended frame-counter theorem: from counter 17,
one call reaches 18 and a three-call sequence reaches 20. -/
theorem frameBoundary_framecount_increments_witness :
    (frameBoundary ⟨true, 60, 0, false, [NMsg.MSGN_END_FRAMEBOUNDARY], false⟩
        ⟨⟨false, false, false, false, false, false⟩, 17, 0, false, false, false,
          0, false, false⟩).g.framecount = 17 + 1 ∧
    (iterFrameBoundary
        (List.replicate 3 ⟨true, 60, 0, false, [NMsg.MSGN_END_FRAMEBOUNDARY], false⟩)
        ⟨⟨false, false, false, false, false, false⟩, 17, 0, false, false, false,
          0, false, false⟩).framecount = (17 + 3) % UINT64_MOD :=
  ⟨((frameBoundary_framecount_increments _ _ (by decide)).2.1 (by decide)),
   ((frameBoundary_framecount_increments
      ⟨true, 60, 0, false, [NMsg.MSGN_END_FRAMEBOUNDARY], false⟩ _ (by decide)).2.2
      (List.replicate 3 ⟨true, 60, 0, false, [NMsg.MSGN_END_FRAMEBOUNDARY], false⟩))⟩

/-- C3 (counterexample to the claim as stated): at the wrap-around
point `2 ^ 64 - 1` the `unsigned long` increment takes the counter to
`0`, not to the old value plus one. -/
theorem framecount_wraps_at_unsigned_long_max :
    ¬ ((frameBoundary ⟨true, 60, 0, false, [NMsg.MSGN_END_FRAMEBOUNDARY], false⟩
        ⟨⟨false, false, false, false, false, false⟩, 2 ^ 64 - 1, 0, false, false,
          false, 0, false, false⟩).g.framecount
      = (2 ^ 64 - 1) + 1) := by
  have h : (frameBoundary ⟨true, 60, 0, false, [NMsg.MSGN_END_FRAMEBOUNDARY], false⟩
      ⟨⟨false, false, false, false, false, false⟩, 2 ^ 64 - 1, 0, false, false,
        false, 0, false, false⟩).g.framecount = ((2 ^ 64 - 1) + 1) % UINT64_MOD :=
    frameBoundary_framecount_step _ _
  rw [h]
  decide

/-- C4 (counterexample to the claim as stated): with the
`backtrack_savestate` configuration option off, no
`MSGB_DO_BACKTRACK_SAVESTATE` is sent even though a backtrack snapshot
was requested since the last frame (`saveBacktrack`) and at least one
snapshot has been taken (`didASavestate`) — the send is additionally
gated on `shared_config.backtrack_savestate`, which the claim omits. -/
theorem backtrack_message_needs_config_flag :
    ¬ (Msg.MSGB_DO_BACKTRACK_SAVESTATE ∈
        (frameSendPhase 0 false
          ⟨⟨false, false, false, false, false, false⟩, 5, 0, true, true, false,
            0, false, false⟩).1) := by
  decide

/-- C4 (amended): during the send phase of a frame boundary the
`MSGB_DO_BACKTRACK_SAVESTATE` notification is sent if and only if a
rewind-safety snapshot was requested since the last frame
(`saveBacktrack`), the backtrack-savestate feature is enabled in the
shared configuration, and at least one snapshot has ever been taken
(`didASavestate`); in all cases the request flag is clear afterwards,
and the phase's terminal message is the `MSGB_START_FRAMEBOUNDARY`
marker (the clearing happens in the block that precedes that send). -/
theorem frameSendPhase_backtrack_message (alerts : Nat) (gi : Bool)
    (g : FrameGlobals) :
    (Msg.MSGB_DO_BACKTRACK_SAVESTATE ∈ (frameSendPhase alerts gi g).1 ↔
      g.saveBacktrack = true ∧ g.cfg.backtrack_savestate = true ∧
        g.didASavestate = true) ∧
    (frameSendPhase alerts gi g).2.saveBacktrack = false ∧
    (frameSendPhase alerts gi g).1.getLast? = some Msg.MSGB_START_FRAMEBOUNDARY := by
  refine ⟨?_, rfl, ?_⟩
  · cases hsb : g.saveBacktrack <;>
      cases hbs : g.cfg.backtrack_savestate <;>
        cases hda : g.didASavestate <;>
          simp [frameSendPhase, hsb, hbs, hda, List.mem_replicate]
  · show (_ ++ [Msg.MSGB_START_FRAMEBOUNDARY]).getLast? = _
    rw [List.getLast?_concat]

/-- C9: an unrecognized message tag dispatched by the frame-boundary
receive loop is logged (`loggedUnknownTag`) and handled exactly like
the end-of-frame marker: the loop returns at once with the state
untouched and the rest of the channel unconsumed, and no assertion
fails.  Lifted to a whole `frameBoundary` call — where the loop's first
dispatched message is the one after the drain loop's silently discarded
message `m`, which must not be a ramwatch — an unknown tag in that
position makes the call behave exactly as if the controller had sent
the end-of-frame marker instead, except for the log: the boundary
completes normally and no error reaches the intercepted program. -/
theorem unknown_tag_treated_as_end_of_frame (inp : FrameInputs)
    (g : FrameGlobals) (gr : RecvGlobals) (rp : Bool) (m : NMsg) (t : Nat)
    (rest : List NMsg) (hm : isRamwatchMsg m = false) :
    receive_messages rp (NMsg.unknownTag t :: rest) gr
      = ⟨gr, [], rest, true, false, false⟩ ∧
    receive_messages rp (NMsg.unknownTag t :: rest) gr
      = { receive_messages rp (NMsg.MSGN_END_FRAMEBOUNDARY :: rest) gr
          with loggedUnknownTag := true } ∧
    frameBoundary { inp with incoming := m :: NMsg.unknownTag t :: rest } g =
      { frameBoundary { inp with incoming := m :: NMsg.MSGN_END_FRAMEBOUNDARY :: rest } g
          with loggedUnknownTag := true } ∧
    (frameBoundary { inp with incoming := m :: NMsg.unknownTag t :: rest } g).loggedUnknownTag
      = true ∧
    (frameBoundary { inp with incoming := m :: NMsg.unknownTag t :: rest } g).assertFailed
      = false ∧
    (frameBoundary { inp with incoming := m :: NMsg.unknownTag t :: rest } g).leftoverIncoming
      = rest := by
  refine ⟨rfl, rfl, ?_, ?_, ?_, ?_⟩ <;>
    simp [frameBoundary, receive_messages, List.dropWhile_cons, hm, List.drop_one]

/-- Witness for the unknown-tag theorem: tag value 9999 behind a
discarded input-delivery message, on a quiescent state. -/
theorem unknown_tag_treated_as_end_of_frame_witness :
    receive_messages false [NMsg.unknownTag 9999]
        ⟨⟨false, false, false, false, false, false⟩, false, false, false⟩
      = ⟨⟨⟨false, false, false, false, false, false⟩, false, false, false⟩,
          [], [], true, false, false⟩ ∧
    frameBoundary
        ⟨true, 60, 0, false, [NMsg.MSGN_ALL_INPUTS, NMsg.unknownTag 9999], false⟩
        ⟨⟨false, false, false, false, false, false⟩, 0, 0, false, false, false,
          0, false, false⟩ =
      { frameBoundary
          ⟨true, 60, 0, false, [NMsg.MSGN_ALL_INPUTS, NMsg.MSGN_END_FRAMEBOUNDARY], false⟩
          ⟨⟨false, false, false, false, false, false⟩, 0, 0, false, false, false,
            0, false, false⟩
        with loggedUnknownTag := true } :=
  ⟨(unknown_tag_treated_as_end_of_frame
      ⟨true, 60, 0, false, [NMsg.MSGN_ALL_INPUTS, NMsg.unknownTag 9999], false⟩
      ⟨⟨false, false, false, false, false, false⟩, 0, 0, false, false, false,
        0, false, false⟩
      ⟨⟨false, false, false, false, false, false⟩, false, false, false⟩
      false NMsg.MSGN_ALL_INPUTS 9999 [] (by decide)).1,
   (unknown_tag_treated_as_end_of_frame
      ⟨true, 60, 0, false, [NMsg.MSGN_ALL_INPUTS, NMsg.unknownTag 9999], false⟩
      ⟨⟨false, false, false, false, false, false⟩, 0, 0, false, false, false,
        0, false, false⟩
      ⟨⟨false, false, false, false, false, false⟩, false, false, false⟩
      false NMsg.MSGN_ALL_INPUTS 9999 [] (by decide)).2.2.1⟩

/-- The skip frequency never drops below the floor of 4 frames. -/
theorem four_le_skipFreqOfFps (fps : Nat) : 4 ≤ skipFreqOfFps fps := by
  simp only [skipFreqOfFps]
  split <;> split <;> omega

/-- In the periodic branch (fast-forwarding, running, not dumping, not
in rendering-skip mode), `skipDraw` draws exactly when the incremented
counter reaches the skip frequency, and then resets the counter. -/
theorem skipDraw_periodic (cfg : SharedConfig) (fps c : Nat)
    (hff : cfg.fastforward = true) (hrun : cfg.running = true)
    (hav : cfg.av_dumping = false) (hfr : cfg.ff_rendering = false) :
    skipDraw cfg fps c =
      if skipFreqOfFps fps ≤ c + 1 then (false, 0) else (true, c + 1) := by
  simp [skipDraw, hff, hrun, hav, hfr]

/-- Exactly one of any `k` consecutive periodic `skipDraw` calls that
finish a period (counter `c`, `c + k` equal to the frequency) draws. -/
theorem countDraws_one_per_period (cfg : SharedConfig) (fps : Nat)
    (hff : cfg.fastforward = true) (hrun : cfg.running = true)
    (hav : cfg.av_dumping = false) (hfr : cfg.ff_rendering = false) :
    ∀ k c, 1 ≤ k → c + k = skipFreqOfFps fps → countDraws cfg fps k c = 1 := by
  intro k
  induction k with
  | zero =>
    intro c h hc
    omega
  | succ n ih =>
    intro c _ hck
    rw [countDraws, skipDraw_periodic cfg fps c hff hrun hav hfr]
    by_cases hn : n = 0
    · subst hn
      have hcond : skipFreqOfFps fps ≤ c + 1 := by omega
      rw [if_pos hcond]
      rfl
    · have hcond : ¬ skipFreqOfFps fps ≤ c + 1 := by omega
      rw [if_neg hcond]
      simpa using ih (c + 1) (by omega) (by omega)

/-- The exponent arithmetic of the float trick: for `5 ≤ fps` the
computed frequency is the least power of two at least `fps`, divided
by 8, with the floor of 4 applied. -/
theorem skipFreqOfFps_eq_of_five_le (fps : Nat) (h : 5 ≤ fps) :
    skipFreqOfFps fps = max 4 (2 ^ (Nat.log 2 (fps - 1) + 1) / 8) := by
  have h1 : 1 < fps := by omega
  have hlog : 2 ≤ Nat.log 2 (fps - 1) := by
    have h4 : 2 ^ 2 ≤ fps - 1 := by omega
    exact (Nat.pow_le_iff_le_log (by norm_num) (by omega)).mp h4
  simp only [skipFreqOfFps]
  rw [if_pos h1]
  have hexp : 127 + Nat.log 2 (fps - 1) - 126 - 3 = Nat.log 2 (fps - 1) - 2 := by
    omega
  rw [hexp]
  have hdiv : 2 ^ (Nat.log 2 (fps - 1) + 1) / 8 = 2 ^ (Nat.log 2 (fps - 1) - 2) := by
    rw [show (8 : Nat) = 2 ^ 3 by norm_num, Nat.pow_div (by omega) (by norm_num),
      show Nat.log 2 (fps - 1) + 1 - 3 = Nat.log 2 (fps - 1) - 2 by omega]
  rw [hdiv]
  rcases Nat.lt_or_ge (2 ^ (Nat.log 2 (fps - 1) - 2)) 4 with hc | hc
  · rw [if_pos hc, Nat.max_eq_left (Nat.le_of_lt hc)]
  · rw [if_neg (Nat.not_lt.mpr hc), Nat.max_eq_right hc]

/-- For `2 ≤ fps` the power `2 ^ (Nat.log 2 (fps - 1) + 1)` is the
least power of two that is at least `fps`. -/
theorem pow_succ_log_pred_least (fps : Nat) (h : 2 ≤ fps) :
    fps ≤ 2 ^ (Nat.log 2 (fps - 1) + 1) ∧
    ∀ j, fps ≤ 2 ^ j → Nat.log 2 (fps - 1) + 1 ≤ j := by
  constructor
  · have hlt := Nat.lt_pow_succ_log_self (show (1 : Nat) < 2 by norm_num) (fps - 1)
    omega
  · intro j hj
    have hne : fps - 1 ≠ 0 := by omega
    have hlt : fps - 1 < 2 ^ j := by omega
    have := (Nat.lt_pow_iff_log_lt (by norm_num) hne).mp hlt
    omega

/-- C5: the skip-draw decision never skips when fast-forward is off,
when single-stepping (`running` false) or when AV-dumping; it always
skips in rendering-skip fast-forward mode; and otherwise it skips
periodically at a frequency equal to the least power of two at least
`fps`, divided by 8, floored at 4 — so the frequency is at least 4 and
exactly one frame is drawn per period of that frequency.  (`fps` is
modelled at integral values; the band `2 ≤ fps ≤ 4`, where the source's
shift count is negative and the C behaviour undefined, is excluded.) -/
theorem skipDraw_decision (cfg : SharedConfig) (fps c : Nat)
    (hfps : fps ≤ 1 ∨ 5 ≤ fps) :
    (cfg.fastforward = false → skipDraw cfg fps c = (false, c)) ∧
    (cfg.running = false → skipDraw cfg fps c = (false, c)) ∧
    (cfg.av_dumping = true → skipDraw cfg fps c = (false, c)) ∧
    (cfg.fastforward = true → cfg.running = true → cfg.av_dumping = false →
      cfg.ff_rendering = true → skipDraw cfg fps c = (true, c)) ∧
    (cfg.fastforward = true → cfg.running = true → cfg.av_dumping = false →
      cfg.ff_rendering = false →
      ∃ p : Nat, fps ≤ 2 ^ p ∧ (∀ j, fps ≤ 2 ^ j → p ≤ j) ∧
        skipFreqOfFps fps = max 4 (2 ^ p / 8) ∧
        4 ≤ skipFreqOfFps fps ∧
        countDraws cfg fps (skipFreqOfFps fps) 0 = 1) := by
  refine ⟨?_, ?_, ?_, ?_, ?_⟩
  · intro h
    simp [skipDraw, h]
  · intro h
    cases hff : cfg.fastforward <;> simp [skipDraw, h, hff]
  · intro h
    cases hff : cfg.fastforward <;> cases hrun : cfg.running <;>
      simp [skipDraw, h, hff, hrun]
  · intro hff hrun hav hfr
    simp [skipDraw, hff, hrun, hav, hfr]
  · intro hff hrun hav hfr
    have hone : countDraws cfg fps (skipFreqOfFps fps) 0 = 1 :=
      countDraws_one_per_period cfg fps hff hrun hav hfr (skipFreqOfFps fps) 0
        (by have := four_le_skipFreqOfFps fps; omega) (by omega)
    rcases hfps with hle | hge
    · refine ⟨0, by simpa using hle, fun j _ => Nat.zero_le j, ?_,
        four_le_skipFreqOfFps fps, hone⟩
      have hnot : ¬ 1 < fps := by omega
      have h4 : skipFreqOfFps fps = 4 := by
        simp only [skipFreqOfFps]
        rw [if_neg hnot]
        decide
      rw [h4]
      decide
    · refine ⟨Nat.log 2 (fps - 1) + 1, (pow_succ_log_pred_least fps (by omega)).1,
        (pow_succ_log_pred_least fps (by omega)).2,
        skipFreqOfFps_eq_of_five_le fps hge, four_le_skipFreqOfFps fps, hone⟩

/-- Witness for the skip-draw theorem at `fps` 60: without fast-forward
no frame is skipped, and in rendering-skip mode every frame is
skipped. -/
theorem skipDraw_decision_witness :
    skipDraw ⟨false, false, false, false, false, false⟩ 60 0 = (false, 0) ∧
    skipDraw ⟨false, true, true, false, true, false⟩ 60 3 = (true, 3) :=
  ⟨(skipDraw_decision ⟨false, false, false, false, false, false⟩ 60 0
      (Or.inr (by norm_num))).1 rfl,
   (skipDraw_decision ⟨false, true, true, false, true, false⟩ 60 3
      (Or.inr (by norm_num))).2.2.2.1 rfl rfl rfl rfl⟩

end LibTAS
